import Mathlib

/-
Verification of the screenshot-control repository.

Shallow embedding of `src/screenshot_control/cli.py` (full-page capture
arithmetic, `web_screenshot` control flow, `sanitize_filename`) and of
`src/screenshot_control/server/service.py` (`ScreenshotService.take_screenshot`).

Python machine-independent integers are modelled as `Int`; Python's floor
division `//` is `Int.fdiv`.  PIL images are modelled at the level of their
pixel dimensions, which is the level the verified claims speak about:
`Image.new('RGB', (w, h))` produces a `w × h` image, `Image.crop((l, t, r, b))`
produces an `(r - l) × (b - t)` image, and `Image.paste` mutates pixels of the
target in place without changing its size.
-/

namespace ScreenshotControl

/-- State of the live browser as observed by the code through the selenium
driver: the scripted page-height query (`get_page_height`), the scripted
`window.innerHeight` query, and the dimensions of the PNG returned by
`driver.get_screenshot_as_png()`. -/
structure DriverState where
  pageHeight : Int
  innerHeight : Int
  shotWidth : Int
  shotHeight : Int
deriving DecidableEq

/-- `ScreenshotConfig` from cli.py: requested window width/height, wait time,
full-page flag. -/
structure ScreenshotConfig where
  width : Int
  height : Int
  wait : Int
  full_page : Bool
deriving DecidableEq

/-- A PIL image, modelled by its pixel dimensions. -/
structure PILImage where
  width : Int
  height : Int
deriving DecidableEq

/-- `Image.new('RGB', (w, h))`: a fresh image of width `w` and height `h`. -/
def imageNew (w h : Int) : PILImage := ⟨w, h⟩

/-- `img.crop((left, top, right, bottom))`: PIL returns an image of size
`(right - left) × (bottom - top)` (padding when the box exceeds the source). -/
def PILImage.crop (_img : PILImage) (box : Int × Int × Int × Int) : PILImage :=
  ⟨box.2.2.1 - box.1, box.2.2.2 - box.2.1⟩

/-- `img.paste(tile, (x, y))`: PIL mutates the target's pixels in place; the
target image keeps its dimensions. -/
def PILImage.paste (img : PILImage) (_tile : PILImage) (_pos : Int × Int) : PILImage :=
  img

/-- `take_screenshot(driver)` from cli.py: decodes the driver's PNG bytes into
an image of whatever size the driver rendered. -/
def take_screenshot (d : DriverState) : PILImage :=
  ⟨d.shotWidth, d.shotHeight⟩

/-- Line 116 of cli.py: `num_screenshots = -(-total_height // viewport_height)`
(Python `//` is floor division, i.e. `Int.fdiv`). -/
def num_screenshots (total_height viewport_height : Int) : Int :=
  -((-total_height).fdiv viewport_height)

/-- The crop height the paste loop of `capture_full_page` computes for tile `i`
out of `n`: `total_height - paste_height` for the last tile, else
`viewport_height`. -/
def crop_height_at (total_height viewport_height : Int) (n i : Nat) : Int :=
  if i = n - 1 then total_height - (i : Int) * viewport_height else viewport_height

/-- The list of crop heights of the paste loop of `capture_full_page`, in tile
index order. -/
def crop_heights (total_height viewport_height : Int) : List Int :=
  (List.range (num_screenshots total_height viewport_height).toNat).map
    (fun i => crop_height_at total_height viewport_height
      (num_screenshots total_height viewport_height).toNat i)

/-- The list of paste offsets (`paste_height = i * viewport_height`) of the
paste loop of `capture_full_page`, in tile index order. -/
def paste_heights (total_height viewport_height : Int) : List Int :=
  (List.range (num_screenshots total_height viewport_height).toNat).map
    (fun (i : Nat) => (i : Int) * viewport_height)

/-- The scroll positions performed by the capture loop of `capture_full_page`:
`scroll_pos = i * viewport_height` where `viewport_height` is the
driver-measured `window.innerHeight`.  The config argument is kept because the
Python function receives it; the scroll arithmetic does not read it. -/
def scroll_positions (d : DriverState) (_config : ScreenshotConfig) : List Int :=
  (List.range (num_screenshots d.pageHeight d.innerHeight).toNat).map
    (fun (i : Nat) => (i : Int) * d.innerHeight)

/-- The crop heights of a run of `capture_full_page` on driver state `d`:
the arithmetic uses the driver-measured page height and `window.innerHeight`,
not the config's nominal height. -/
def capture_crop_heights (d : DriverState) (_config : ScreenshotConfig) : List Int :=
  crop_heights d.pageHeight d.innerHeight

/-- `capture_full_page(driver, config)` from cli.py: measures the page and the
viewport, takes `num_screenshots` tiles, then crops each tile to
`(0, 0, config.width, crop_height)` and pastes it at `(0, i*viewport_height)`
into a fresh `config.width × total_height` image. -/
def capture_full_page (d : DriverState) (config : ScreenshotConfig) : PILImage :=
  let total_height := d.pageHeight
  let viewport_height := d.innerHeight
  let n := (num_screenshots total_height viewport_height).toNat
  let screenshots := (List.range n).map (fun _ => take_screenshot d)
  let final_image := imageNew config.width total_height
  screenshots.enum.foldl
    (fun img p =>
      let i := p.1
      let screenshot := p.2
      let paste_height : Int := (i : Int) * viewport_height
      let crop_h : Int :=
        if i = n - 1 then total_height - paste_height else viewport_height
      img.paste (screenshot.crop (0, 0, config.width, crop_h)) (0, paste_height))
    final_image

/-- Which steps of a `web_screenshot` run raise: `setup_webdriver`,
`driver.get(url)`, `driver.save_screenshot` (single-viewport path),
`take_screenshot` at a given tile index of the full-page loop, or the final
`final_image.save`.  All of these raise `WebDriverException` or `IOError`,
the two exception types the function catches. -/
structure FaultSpec where
  setupFails : Bool
  navFails : Bool
  viewportSaveFails : Bool
  captureFailAt : Option Nat
  finalSaveFails : Bool
deriving DecidableEq

/-- Externally visible resource state after a `web_screenshot` run: whether a
driver process was created, whether `driver.quit()` was called, and whether a
complete image file was written to the output path. -/
structure World where
  driverCreated : Bool
  driverQuit : Bool
  fileSaved : Bool
deriving DecidableEq

/-- `web_screenshot(url, output_path, config)` from cli.py, lines 136-169.
The body is one `try:` block; `except (WebDriverException, IOError)` returns
`(False, None)`.  There is no `finally:`—`driver.quit()` appears only on the
two success returns, so a raise after driver creation leaves the driver
running.  Returns the Python return value paired with the resource `World`. -/
def web_screenshot (fault : FaultSpec) (d : DriverState) (config : ScreenshotConfig)
    (output_path : String) : (Bool × Option String) × World :=
  if fault.setupFails then
    ((false, none), ⟨false, false, false⟩)
  else if fault.navFails then
    ((false, none), ⟨true, false, false⟩)
  else if !config.full_page then
    if fault.viewportSaveFails then
      ((false, none), ⟨true, false, false⟩)
    else
      ((true, some output_path), ⟨true, true, true⟩)
  else
    let n := (num_screenshots d.pageHeight d.innerHeight).toNat
    let captureRaises : Bool :=
      match fault.captureFailAt with
      | some i => decide (i < n)
      | none => false
    if captureRaises then
      ((false, none), ⟨true, false, false⟩)
    else if fault.finalSaveFails then
      ((false, none), ⟨true, false, false⟩)
    else
      ((true, some output_path), ⟨true, true, true⟩)

/-- The `PRESETS` dict of cli.py. -/
def PRESETS : List (String × Int × Int × String) :=
  [("desktop", 1920, 1080, "Desktop HD"),
   ("laptop", 1366, 768, "Laptop"),
   ("tablet", 768, 1024, "iPad/Tablet"),
   ("phone", 390, 844, "iPhone 12/13/14"),
   ("phone-ls", 844, 390, "iPhone Landscape"),
   ("4k", 3840, 2160, "4K Display")]

/-- `PRESETS[name]` as an optional lookup; `none` is Python's `KeyError`. -/
def presets_get (name : String) : Option (Int × Int × String) :=
  (PRESETS.find? (fun p => p.1 == name)).map (fun p => p.2)

/-- The parameter names of `def web_screenshot(url, output_path=None, config=None)`
in cli.py (the function takes no other keywords). -/
def web_screenshot_param_names : List String :=
  ["url", "output_path", "config"]

/-- The keyword-argument names `ScreenshotService.take_screenshot` passes in
`web_screenshot(url=url, output_path=temp_path, width=w, height=h, full_page=full_page)`. -/
def service_call_kwarg_names : List String :=
  ["url", "output_path", "width", "height", "full_page"]

/-- Python raises `TypeError` at a call site when a keyword argument does not
match any parameter of the callee; the callee body is never entered. -/
def service_call_raises_type_error : Bool :=
  !(service_call_kwarg_names.all (fun k => web_screenshot_param_names.contains k))

/-- Python truthiness of an optional integer (`if width and height:`):
`None` and `0` are falsy. -/
def truthy_int (x : Option Int) : Bool :=
  match x with
  | none => false
  | some v => v != 0

/-- The part of `ScreenshotService.take_screenshot` from the `web_screenshot`
call onward: the call binds keywords first, so it raises `TypeError`
(caught by `except Exception`) before the callee can run; the read-and-encode
success path below it is unreachable. -/
def service_body (_url : String) (_full_page : Bool) : Bool × String × Option Unit :=
  if service_call_raises_type_error then
    (false, "Error: TypeError: web_screenshot() got an unexpected keyword argument", none)
  else
    (true, "", some ())

namespace ScreenshotService

/-- `ScreenshotService.take_screenshot` from server/service.py.  A named
temporary file is created (`delete=False`), the `try:` body resolves the
dimensions (`PRESETS[preset]` may raise `KeyError`) and calls `web_screenshot`
with keyword arguments; `except Exception` converts any raise into
`(False, "Error: ...", None)`; the `finally:` block unlinks the temp file when
it exists.  Returns the result triple paired with whether the temp file still
exists afterwards. -/
def take_screenshot (url preset : String) (width height : Option Int)
    (full_page : Bool) : (Bool × String × Option Unit) × Bool :=
  let temp_file_exists := true
  let result : Bool × String × Option Unit :=
    if truthy_int width && truthy_int height then
      service_body url full_page
    else
      match presets_get preset with
      | none => (false, "Error: KeyError", none)
      | some _ => service_body url full_page
  let temp_after := if temp_file_exists then false else temp_file_exists
  (result, temp_after)

end ScreenshotService

/-- The character class kept by `re.sub(r'[^a-zA-Z0-9._-]', '_', base)`. -/
def allowed_char (c : Char) : Bool :=
  (('a' ≤ c && c ≤ 'z') || ('A' ≤ c && c ≤ 'Z') || ('0' ≤ c && c ≤ '9')
    || c == '.' || c == '_' || c == '-')

/-- `netloc.split('@')[-1]`: the suffix of the string after its last `'@'`
(the whole string when there is none). -/
def after_last_at (netloc : List Char) : List Char :=
  (netloc.reverse.takeWhile (fun c => c ≠ '@')).reverse

/-- `base.rstrip('/')`: drop trailing slashes. -/
def rstrip_slash (s : List Char) : List Char :=
  (s.reverse.dropWhile (fun c => c = '/')).reverse

/-- The sanitized `safe` part of `sanitize_filename` (cli.py lines 47-52):
hostname after discarding userinfo, concatenated with the path, trailing
slashes stripped, every character outside `[a-zA-Z0-9._-]` replaced by `'_'`. -/
def sanitize_base (netloc path : List Char) : List Char :=
  let hostname := after_last_at netloc
  let base := rstrip_slash (hostname ++ path)
  base.map (fun c => if allowed_char c then c else '_')

/-- `sanitize_filename(url)` from cli.py, as a function of the parsed
`netloc` and `path` of the URL and of the formatted timestamp:
`f"{safe}_{timestamp}.png"`. -/
def sanitize_filename (netloc path timestamp : List Char) : List Char :=
  sanitize_base netloc path ++ '_' :: timestamp ++ ['.', 'p', 'n', 'g']

/-! ### Helper lemmas about the tiling arithmetic -/

lemma num_screenshots_eq_neg_ediv (th vh : Int) (hv : 0 < vh) :
    num_screenshots th vh = -((-th) / vh) := by
  unfold num_screenshots
  rw [Int.fdiv_eq_ediv _ (le_of_lt hv)]

/-- `total_height ≤ num_screenshots * viewport_height`: the tiles cover the page. -/
lemma le_num_screenshots_mul (th vh : Int) (hv : 0 < vh) :
    th ≤ num_screenshots th vh * vh := by
  rw [num_screenshots_eq_neg_ediv th vh hv]
  have h := Int.ediv_mul_le (-th) (ne_of_gt hv)
  linarith [h]

/-- `(num_screenshots - 1) * viewport_height < total_height`: the last tile is
strictly needed. -/
lemma pred_num_screenshots_mul_lt (th vh : Int) (hv : 0 < vh) :
    (num_screenshots th vh - 1) * vh < th := by
  rw [num_screenshots_eq_neg_ediv th vh hv]
  have h := Int.lt_ediv_add_one_mul_self (-th) hv
  nlinarith [h]

lemma one_le_num_screenshots (th vh : Int) (hv : 0 < vh) (hth : 0 < th) :
    1 ≤ num_screenshots th vh := by
  by_contra hn
  push_neg at hn
  have h1 : num_screenshots th vh * vh ≤ 0 := by
    have : num_screenshots th vh ≤ 0 := by omega
    exact mul_nonpos_of_nonpos_of_nonneg this (le_of_lt hv)
  have h2 := le_num_screenshots_mul th vh hv
  omega

lemma toNat_num_screenshots (th vh : Int) (hv : 0 < vh) (hth : 0 < th) :
    ((num_screenshots th vh).toNat : Int) = num_screenshots th vh := by
  have := one_le_num_screenshots th vh hv hth
  omega

/-- Reading position `i` of a mapped range. -/
lemma getD_map_range (g : Nat → Int) (n i : Nat) (h : i < n) :
    ((List.range n).map g).getD i 0 = g i := by
  simp [List.getD_eq_getElem?_getD, List.getElem?_range h]

lemma sum_map_range_const (n : Nat) (v : Int) :
    ((List.range n).map (fun _ => v)).sum = (n : Int) * v := by
  induction n with
  | zero => simp
  | succ m ih =>
    rw [List.range_succ, List.map_append, List.sum_append, ih]
    push_cast
    simp
    ring

lemma crop_heights_length (th vh : Int) :
    (crop_heights th vh).length = (num_screenshots th vh).toNat := by
  unfold crop_heights
  rw [List.length_map, List.length_range]

lemma paste_heights_length (th vh : Int) :
    (paste_heights th vh).length = (num_screenshots th vh).toNat := by
  unfold paste_heights
  rw [List.length_map, List.length_range]

/-- A non-final tile's crop height is exactly the viewport height. -/
lemma crop_heights_getD_of_not_last (th vh : Int) (i : Nat)
    (h : i + 1 < (num_screenshots th vh).toNat) :
    (crop_heights th vh).getD i 0 = vh := by
  unfold crop_heights
  rw [getD_map_range _ _ _ (by omega)]
  unfold crop_height_at
  rw [if_neg (by omega)]

/-- The final tile's crop height is the remainder `th - (n - 1) * vh`. -/
lemma crop_heights_getLast (th vh : Int) (hv : 0 < vh) (hth : 0 < th) :
    (crop_heights th vh).getLast? =
      some (th - (num_screenshots th vh - 1) * vh) := by
  have h1 := one_le_num_screenshots th vh hv hth
  obtain ⟨m, hm⟩ : ∃ m, (num_screenshots th vh).toNat = m + 1 :=
    ⟨(num_screenshots th vh).toNat - 1, by omega⟩
  have hcast : (m : Int) = num_screenshots th vh - 1 := by omega
  unfold crop_heights
  rw [hm, List.range_succ, List.map_append, List.map_singleton, List.getLast?_concat]
  unfold crop_height_at
  rw [if_pos (by omega), hcast]

lemma crop_heights_sum (th vh : Int) (hv : 0 < vh) (hth : 0 < th) :
    (crop_heights th vh).sum = th := by
  have h1 := one_le_num_screenshots th vh hv hth
  obtain ⟨m, hm⟩ : ∃ m, (num_screenshots th vh).toNat = m + 1 :=
    ⟨(num_screenshots th vh).toNat - 1, by omega⟩
  unfold crop_heights
  rw [hm, List.range_succ, List.map_append, List.sum_append]
  have hfirst : (List.range m).map (fun i => crop_height_at th vh (m + 1) i)
      = (List.range m).map (fun _ => vh) := by
    apply List.map_congr_left
    intro i hi
    rw [List.mem_range] at hi
    unfold crop_height_at
    rw [if_neg (by omega)]
  rw [hfirst, sum_map_range_const]
  unfold crop_height_at
  rw [List.map_singleton, List.sum_singleton, if_pos (by omega)]
  ring

/-! ### Claim theorems -/

/-- Claim C1: for every `totalPageHeight ≥ viewportHeight > 0`, the crop
heights computed by `capture_full_page` sum exactly to the total page height;
every tile except the last contributes exactly the viewport height, the last
tile's crop height is `th - (tileCount - 1) * vh`, which is at most the
viewport height, and when the page height is exactly divisible by the viewport
height the last crop height equals the viewport height (no zero-height tile). -/
theorem C1_crop_heights_partition (th vh : Int) (hv : 0 < vh) (hth : vh ≤ th) :
    (crop_heights th vh).sum = th ∧
    (∀ i : Nat, i + 1 < (crop_heights th vh).length →
      (crop_heights th vh).getD i 0 = vh) ∧
    (crop_heights th vh).getLast? =
      some (th - (num_screenshots th vh - 1) * vh) ∧
    th - (num_screenshots th vh - 1) * vh ≤ vh ∧
    (vh ∣ th → th - (num_screenshots th vh - 1) * vh = vh) := by
  have hth0 : 0 < th := lt_of_lt_of_le hv hth
  refine ⟨crop_heights_sum th vh hv hth0, ?_, crop_heights_getLast th vh hv hth0, ?_, ?_⟩
  · intro i hi
    rw [crop_heights_length] at hi
    exact crop_heights_getD_of_not_last th vh i hi
  · have := le_num_screenshots_mul th vh hv
    nlinarith [this]
  · rintro ⟨k, hk⟩
    have hle := le_num_screenshots_mul th vh hv
    have hlt := pred_num_screenshots_mul_lt th vh hv
    have hk1 : k ≤ num_screenshots th vh :=
      le_of_mul_le_mul_right (by linarith [hle, hk]) hv
    have hk2 : num_screenshots th vh ≤ k := by
      have h3 : num_screenshots th vh - 1 < k :=
        lt_of_mul_lt_mul_right (by linarith [hlt, hk]) (le_of_lt hv)
      omega
    have hkn : num_screenshots th vh = k := le_antisymm hk2 hk1
    rw [hkn]
    linear_combination hk

/-- Witness for C1 at `totalPageHeight = 2000`, `viewportHeight = 800`. -/
theorem C1_crop_heights_partition_witness :
    (crop_heights 2000 800).sum = 2000 :=
  (C1_crop_heights_partition 2000 800 (by decide) (by decide)).1

/-- Claim C2: the number of capture passes equals the exact integer ceiling
`⌈totalPageHeight / viewportHeight⌉`; for a 2000-pixel page and an 800-pixel
viewport there are 3 tiles with crop heights `[800, 800, 400]` and paste
offsets `[0, 800, 1600]`, and for an 800-pixel page and an 800-pixel viewport
there is exactly 1 tile. -/
theorem C2_tile_count_ceiling :
    (∀ th vh : Int, 0 < vh → vh ≤ th →
      num_screenshots th vh = ⌈((th : ℚ) / (vh : ℚ))⌉) ∧
    num_screenshots 2000 800 = 3 ∧
    crop_heights 2000 800 = [800, 800, 400] ∧
    paste_heights 2000 800 = [0, 800, 1600] ∧
    num_screenshots 800 800 = 1 := by
  refine ⟨?_, by decide, by decide, by decide, by decide⟩
  intro th vh hv hth
  have hvQ : (0 : ℚ) < (vh : ℚ) := by exact_mod_cast hv
  symm
  rw [Int.ceil_eq_iff]
  constructor
  · rw [lt_div_iff₀ hvQ]
    have h2 := pred_num_screenshots_mul_lt th vh hv
    exact_mod_cast h2
  · rw [div_le_iff₀ hvQ]
    have h2 := le_num_screenshots_mul th vh hv
    exact_mod_cast h2

/-- Witness for C2 at `totalPageHeight = 2000`, `viewportHeight = 800`. -/
theorem C2_tile_count_ceiling_witness :
    num_screenshots 2000 800 = ⌈(((2000 : Int) : ℚ) / ((800 : Int) : ℚ))⌉ :=
  C2_tile_count_ceiling.1 2000 800 (by decide) (by decide)

/-- A fold whose step function returns the accumulator unchanged is the
identity; this is exactly the paste loop at the level of image dimensions,
since `PILImage.paste` keeps the target's size. -/
lemma foldl_const_acc {α β : Type} (f : α → β → α) (hf : ∀ a b, f a b = a) :
    ∀ (l : List β) (a : α), l.foldl f a = a := by
  intro l
  induction l with
  | nil => intro a; rfl
  | cons x xs ih => intro a; rw [List.foldl_cons, hf]; exact ih a

/-- Pasting tiles never changes the dimensions of the destination buffer, so
the composite is dimension-wise the freshly allocated image. -/
lemma capture_full_page_eq_imageNew (d : DriverState) (config : ScreenshotConfig) :
    capture_full_page d config = imageNew config.width d.pageHeight := by
  unfold capture_full_page
  exact foldl_const_acc _ (fun a b => rfl) _ _

/-- Claim C3: the composite image returned by `capture_full_page` has exact
pixel dimensions `config.width × totalPageHeight`: its width is the requested
viewport width regardless of page height, and its height is the measured total
page height. -/
theorem C3_composite_dimensions (d : DriverState) (config : ScreenshotConfig) :
    (capture_full_page d config).width = config.width ∧
    (capture_full_page d config).height = d.pageHeight := by
  rw [capture_full_page_eq_imageNew]
  exact ⟨rfl, rfl⟩

/-- Witness for C3 at a 2000-pixel page, 800-pixel measured viewport and a
1280-pixel wide configuration. -/
theorem C3_composite_dimensions_witness :
    (capture_full_page ⟨2000, 800, 1280, 800⟩ ⟨1280, 720, 2, true⟩).width = 1280 ∧
    (capture_full_page ⟨2000, 800, 1280, 800⟩ ⟨1280, 720, 2, true⟩).height = 2000 :=
  C3_composite_dimensions ⟨2000, 800, 1280, 800⟩ ⟨1280, 720, 2, true⟩

/-- Claim C4: `capture_full_page` pastes tile `i` at vertical offset
`i * viewportHeight` in index order, and these offsets are strictly
increasing, non-overlapping and gapless: each next offset is the previous one
plus the previous tile's crop height. -/
theorem C4_paste_offsets_gapless (th vh : Int) (hv : 0 < vh) (hth : vh ≤ th) :
    (∀ i : Nat, i < (paste_heights th vh).length →
      (paste_heights th vh).getD i 0 = (i : Int) * vh) ∧
    (∀ i : Nat, i + 1 < (paste_heights th vh).length →
      (paste_heights th vh).getD (i + 1) 0 =
        (paste_heights th vh).getD i 0 + (crop_heights th vh).getD i 0) ∧
    (∀ i : Nat, i + 1 < (paste_heights th vh).length →
      (paste_heights th vh).getD i 0 < (paste_heights th vh).getD (i + 1) 0) := by
  have hlen := paste_heights_length th vh
  have hoff : ∀ i : Nat, i < (num_screenshots th vh).toNat →
      (paste_heights th vh).getD i 0 = (i : Int) * vh := by
    intro i hi
    unfold paste_heights
    exact getD_map_range _ _ _ hi
  refine ⟨?_, ?_, ?_⟩
  · intro i hi
    exact hoff i (by omega)
  · intro i hi
    rw [hlen] at hi
    rw [hoff i (by omega), hoff (i + 1) (by omega),
      crop_heights_getD_of_not_last th vh i hi]
    push_cast
    ring
  · intro i hi
    rw [hlen] at hi
    rw [hoff i (by omega), hoff (i + 1) (by omega)]
    have : (i : Int) < (i : Int) + 1 := by omega
    push_cast
    nlinarith [this, hv]

/-- Witness for C4 at `totalPageHeight = 2000`, `viewportHeight = 800`,
tiles 0 and 1. -/
theorem C4_paste_offsets_gapless_witness :
    (paste_heights 2000 800).getD 0 0 < (paste_heights 2000 800).getD 1 0 :=
  (C4_paste_offsets_gapless 2000 800 (by decide) (by decide)).2.2 0 (by decide)

/-- Claim C5: all scroll-offset and crop arithmetic of `capture_full_page`
uses the viewport height measured from the driver (`window.innerHeight`): every
scroll position is a multiple of the measured value, every non-final crop
height equals the measured value, and both are unchanged when the caller's
nominally requested window height is replaced by any other value. -/
theorem C5_measured_viewport_arithmetic (d : DriverState) (c : ScreenshotConfig)
    (hv : 0 < d.innerHeight) (hth : d.innerHeight ≤ d.pageHeight) :
    (∀ p ∈ scroll_positions d c, d.innerHeight ∣ p) ∧
    (∀ i : Nat, i + 1 < (capture_crop_heights d c).length →
      (capture_crop_heights d c).getD i 0 = d.innerHeight) ∧
    (∀ h : Int,
      scroll_positions d ⟨c.width, h, c.wait, c.full_page⟩ = scroll_positions d c ∧
      capture_crop_heights d ⟨c.width, h, c.wait, c.full_page⟩ =
        capture_crop_heights d c) := by
  refine ⟨?_, ?_, ?_⟩
  · intro p hp
    unfold scroll_positions at hp
    rw [List.mem_map] at hp
    obtain ⟨i, _, hi⟩ := hp
    exact ⟨(i : Int), by rw [← hi]; ring⟩
  · intro i hi
    unfold capture_crop_heights at hi ⊢
    rw [crop_heights_length] at hi
    exact crop_heights_getD_of_not_last _ _ i hi
  · intro h
    exact ⟨rfl, rfl⟩

/-- Witness for C5: a driver whose measured `window.innerHeight` is 792 while
the config requests 800; the capture arithmetic does not change when the
requested height changes. -/
theorem C5_measured_viewport_arithmetic_witness :
    scroll_positions ⟨2000, 792, 1280, 792⟩ ⟨1280, 999, 2, true⟩ =
      scroll_positions ⟨2000, 792, 1280, 792⟩ ⟨1280, 800, 2, true⟩ ∧
    capture_crop_heights ⟨2000, 792, 1280, 792⟩ ⟨1280, 999, 2, true⟩ =
      capture_crop_heights ⟨2000, 792, 1280, 792⟩ ⟨1280, 800, 2, true⟩ :=
  (C5_measured_viewport_arithmetic ⟨2000, 792, 1280, 792⟩ ⟨1280, 800, 2, true⟩
    (by decide) (by decide)).2.2 999

/-- Evidence for claim C6 (a violation): when `driver.get(url)` raises a
`WebDriverException` during navigation, `web_screenshot` returns
`(False, None)` through its exception handler, but the already-created driver
is never quit — the function has no `finally:` and calls `driver.quit()` only
on the success returns, so this exit path leaves the driver process running. -/
theorem C6_driver_leak_on_nav_failure :
    web_screenshot ⟨false, true, false, none, false⟩ ⟨2000, 800, 1920, 800⟩
        ⟨1920, 1080, 2, true⟩ "shot.png" = ((false, none), ⟨true, false, false⟩) ∧
    (web_screenshot ⟨false, true, false, none, false⟩ ⟨2000, 800, 1920, 800⟩
        ⟨1920, 1080, 2, true⟩ "shot.png").2.driverCreated = true ∧
    (web_screenshot ⟨false, true, false, none, false⟩ ⟨2000, 800, 1920, 800⟩
        ⟨1920, 1080, 2, true⟩ "shot.png").2.driverQuit = false :=
  ⟨rfl, rfl, rfl⟩

/-- Claim C7: if `take_screenshot` raises on some tile of the full-page
capture loop, `web_screenshot` reports the whole operation as a single
terminal failure `(False, None)` and no image file is produced
(`fileSaved = false`). -/
theorem C7_capture_failure_terminal (fault : FaultSpec) (d : DriverState)
    (c : ScreenshotConfig) (path : String) (i : Nat)
    (hfp : c.full_page = true) (hs : fault.setupFails = false)
    (hn : fault.navFails = false) (hc : fault.captureFailAt = some i)
    (hi : i < (num_screenshots d.pageHeight d.innerHeight).toNat) :
    web_screenshot fault d c path = ((false, none), ⟨true, false, false⟩) := by
  unfold web_screenshot
  rw [hs, hn, hfp, hc]
  simp [hi]

/-- Witness for C7: capture failure on tile index 1 of the 3 tiles of a
2000-pixel page under an 800-pixel viewport. -/
theorem C7_capture_failure_terminal_witness :
    web_screenshot ⟨false, false, false, some 1, false⟩ ⟨2000, 800, 1920, 800⟩
        ⟨1920, 1080, 2, true⟩ "shot.png" = ((false, none), ⟨true, false, false⟩) :=
  C7_capture_failure_terminal _ _ _ _ 1 rfl rfl rfl rfl (by decide)

/-- Claim C8: every invocation of `ScreenshotService.take_screenshot` returns
a failure triple whose success flag is `False` and whose image payload is
`None`, because the keyword arguments it passes to `web_screenshot` do not
match that function's `(url, output_path, config)` parameters, so the call
raises `TypeError` and the generic exception handler converts it into a
failure result. -/
theorem C8_service_call_always_fails :
    service_call_raises_type_error = true ∧
    ∀ (url preset : String) (width height : Option Int) (fp : Bool),
      (ScreenshotService.take_screenshot url preset width height fp).1.1 = false ∧
      (ScreenshotService.take_screenshot url preset width height fp).1.2.2 = none := by
  have hty : service_call_raises_type_error = true := rfl
  refine ⟨hty, ?_⟩
  intro url preset w h fp
  unfold ScreenshotService.take_screenshot service_body
  cases hb : truthy_int w && truthy_int h with
  | false =>
    cases hp : presets_get preset with
    | none => simp [hb, hp]
    | some p => simp [hb, hp, hty]
  | true => simp [hb, hty]

/-- Witness for C8 at a concrete request. -/
theorem C8_service_call_always_fails_witness :
    (ScreenshotService.take_screenshot "http://example.com" "desktop"
      none none false).1.1 = false ∧
    (ScreenshotService.take_screenshot "http://example.com" "desktop"
      none none false).1.2.2 = none :=
  C8_service_call_always_fails.2 "http://example.com" "desktop" none none false

/-- Claim C9: `ScreenshotService.take_screenshot` removes its temporary output
file on every return path: the `finally:` block unlinks it unconditionally, so
no invocation leaves the temp file on disk. -/
theorem C9_service_temp_file_cleanup (url preset : String)
    (width height : Option Int) (fp : Bool) :
    (ScreenshotService.take_screenshot url preset width height fp).2 = false :=
  rfl

/-- Witness for C9 at a concrete request. -/
theorem C9_service_temp_file_cleanup_witness :
    (ScreenshotService.take_screenshot "http://example.com" "desktop"
      none none false).2 = false :=
  C9_service_temp_file_cleanup "http://example.com" "desktop" none none false

/-! ### Helper lemmas for `sanitize_filename` -/

lemma takeWhile_append_stop (p : Char → Bool) (a : Char) (ha : p a = false) :
    ∀ (l₁ l₂ : List Char), (∀ x ∈ l₁, p x = true) →
      (l₁ ++ a :: l₂).takeWhile p = l₁ := by
  intro l₁
  induction l₁ with
  | nil => intro l₂ _; simp [List.takeWhile_cons, ha]
  | cons c cs ih =>
    intro l₂ h₁
    have hc : p c = true := h₁ c (by simp)
    simp [List.takeWhile_cons, hc, ih l₂ (fun x hx => h₁ x (by simp [hx]))]

/-- `split('@')[-1]` is the identity on strings that contain no `'@'`. -/
lemma after_last_at_no_at (h : List Char) (hh : '@' ∉ h) :
    after_last_at h = h := by
  unfold after_last_at
  rw [List.takeWhile_eq_self_iff.mpr ?_, List.reverse_reverse]
  intro x hx
  rw [List.mem_reverse] at hx
  simp only [decide_eq_true_eq]
  intro heq
  exact hh (heq ▸ hx)

/-- `split('@')[-1]` discards everything up to the last `'@'`. -/
lemma after_last_at_append (u h : List Char) (hh : '@' ∉ h) :
    after_last_at (u ++ '@' :: h) = h := by
  unfold after_last_at
  rw [List.reverse_append, List.reverse_cons, List.append_assoc,
    List.singleton_append]
  rw [takeWhile_append_stop _ '@' (by simp) _ _ ?_, List.reverse_reverse]
  intro x hx
  rw [List.mem_reverse] at hx
  simp only [decide_eq_true_eq]
  intro heq
  exact hh (heq ▸ hx)

/-- Claim C10: `sanitize_filename` produces a single safe path component:
every character of the part before the appended timestamp suffix lies in
`[a-zA-Z0-9._-]` (anything else was replaced by `'_'`), any userinfo before an
`'@'` in the netloc is discarded, and the result ends with `".png"`. -/
theorem C10_sanitize_filename_safe (netloc path timestamp : List Char) :
    (∀ c ∈ sanitize_base netloc path, allowed_char c = true) ∧
    ['.', 'p', 'n', 'g'] <:+ sanitize_filename netloc path timestamp ∧
    (∀ u h : List Char, '@' ∉ h →
      sanitize_filename (u ++ '@' :: h) path timestamp =
        sanitize_filename h path timestamp) := by
  refine ⟨?_, ?_, ?_⟩
  · intro c hc
    unfold sanitize_base at hc
    rw [List.mem_map] at hc
    obtain ⟨b, _, hb⟩ := hc
    by_cases hab : allowed_char b = true
    · rw [← hb, if_pos hab]; exact hab
    · rw [← hb, if_neg hab]; decide
  · unfold sanitize_filename
    exact List.suffix_append _ _
  · intro u h hh
    unfold sanitize_filename sanitize_base
    rw [after_last_at_append u h hh, after_last_at_no_at h hh]

/-- Witness for C10: userinfo `user@` before the hostname is discarded. -/
theorem C10_sanitize_filename_safe_witness :
    sanitize_filename (['u', 's', 'e', 'r'] ++ '@' :: ['e', 'x', 'a'])
        ['/', 'a'] ['2', '0'] =
      sanitize_filename ['e', 'x', 'a'] ['/', 'a'] ['2', '0'] :=
  (C10_sanitize_filename_safe [] ['/', 'a'] ['2', '0']).2.2
    ['u', 's', 'e', 'r'] ['e', 'x', 'a'] (by decide)

end ScreenshotControl
